import Mathlib

/-!
Shallow embedding of `send_digest.py` (spacex-launches-feed).

Conventions of the embedding:
 - instants are minutes since the Unix epoch (1970-01-01T00:00Z), as `Int`;
   Python `datetime` comparison becomes `Int` comparison, `timedelta(days = n)`
   becomes `n * 1440` minutes;
 - the wall clock `NOW_UTC` is a parameter `now : Int` threaded through the
   definitions that read the module-level constants derived from it;
 - network effects are parameters: an adapter receives its HTTP response as
   `Except Unit α` (`Except.error` models any raised request/JSON exception),
   the URL probe of `_validate_url` is a `String → Bool`, the rocket-name
   endpoint of `_rocket_name` is a `String → Option String` (`none` models a
   raised exception), and the module-level dict `_ROCKETS` is an explicit
   association list threaded through;
 - a Python value that may be absent or `None` is an `Option`;
 - raising `NameError` in `_render` is modelled by returning `none`.
-/

namespace SendDigest

/-- Character-list scan: does `hay` start with `needle`? -/
def startsWithChars : List Char → List Char → Bool
  | _, [] => true
  | [], _ :: _ => false
  | c :: cs, d :: ds => c = d && startsWithChars cs ds

/-- Character-list scan: does `needle` occur as a contiguous run in `hay`?
Models the Python `in` operator on strings (for non-empty `needle`). -/
def containsSub : List Char → List Char → Bool
  | [], needle => needle.isEmpty
  | c :: cs, needle => startsWithChars (c :: cs) needle || containsSub cs needle

/-- Python `needle in hay` on strings. -/
def containsStr (hay needle : String) : Bool :=
  containsSub hay.data needle.data

/-- Lowercase one character (ASCII case, which covers every string this
script handles). -/
def lowerCh (c : Char) : Char :=
  if Char.ofNat 65 ≤ c && c ≤ Char.ofNat 90 then Char.ofNat (c.toNat + 32) else c

/-- Python `str.lower()`. -/
def pyLower (s : String) : String := String.mk (s.data.map lowerCh)

/-- An ASCII whitespace character (space, tab, newline, carriage return) —
the whitespace Python `strip()` meets in this script's data. -/
def isSpaceCh (c : Char) : Bool :=
  c = Char.ofNat 32 || c = Char.ofNat 9 || c = Char.ofNat 10 || c = Char.ofNat 13

/-- Python `str.strip()` with no argument: trim whitespace from both ends. -/
def pyStrip (s : String) : String :=
  String.mk (((s.data.dropWhile isSpaceCh).reverse.dropWhile isSpaceCh).reverse)

/-- Python truthiness-based `x or y` / `x if x else y` on an optional string:
`None` and the empty string are falsy. -/
def pyOr (x : Option String) : String → String
  | d => match x with
    | some s => if s = "" then d else s
    | none => d

/-- Split a character list at the first occurrence of `d`:
`some (before, after)` when `d` occurs, `none` otherwise. -/
def splitFirst (d : Char) : List Char → Option (List Char × List Char)
  | [] => none
  | c :: cs =>
      if c = d then some ([], cs)
      else (splitFirst d cs).map fun p => (c :: p.1, p.2)

/-- Python `s.split(delim, 1)` for a one-character delimiter, as used on the
fallback-provider display name; `none` when the delimiter does not occur
(the code guards the call with `delim in s`). -/
def pySplit1 (dl : Char) (s : String) : Option (String × String) :=
  (splitFirst dl s.data).map fun p => (String.mk p.1, String.mk p.2)

/-- Python `s.split(delim)[0]`: the part before the first occurrence of the
delimiter, or all of `s` when it does not occur. -/
def pySplitHead (dl : Char) (s : String) : String :=
  match splitFirst dl s.data with
  | some p => String.mk p.1
  | none => s

/- ───── `_slug` (line 43): URL-safe slug derivation ───── -/

/-- The characters removed by the first substitution of `_slug`:
right single quote (U+2019), apostrophe, backtick. -/
def isApos (c : Char) : Bool :=
  c = Char.ofNat 8217 || c = Char.ofNat 39 || c = Char.ofNat 96

/-- A character kept verbatim by the slug substitution: lowercase ASCII letter
or digit (the regex class `a-z0-9`, applied after lowering). -/
def isLowerAlnum (c : Char) : Bool :=
  (Char.ofNat 97 ≤ c && c ≤ Char.ofNat 122) || (Char.ofNat 48 ≤ c && c ≤ Char.ofNat 57)

/-- Replace every maximal run of characters outside `a-z0-9` with a single
hyphen (the substitution `[^a-z0-9]+ → -`). -/
def hyphenateRuns : List Char → List Char
  | [] => []
  | c :: cs =>
      if isLowerAlnum c then c :: hyphenateRuns cs
      else
        match hyphenateRuns cs with
        | Char.ofNat 45 :: rest => Char.ofNat 45 :: rest
        | rest => Char.ofNat 45 :: rest

/-- Python `s.strip(hyphen)`: drop leading and trailing hyphens. -/
def stripHyphens (l : List Char) : List Char :=
  ((l.dropWhile fun c => c = Char.ofNat 45).reverse.dropWhile fun c =>
    c = Char.ofNat 45).reverse

/-- Collapse every run of two or more hyphens to one (the final substitution
of `_slug`; a no-op after `hyphenateRuns`, kept for fidelity). -/
def collapseHyphens : List Char → List Char
  | [] => []
  | c :: cs =>
      if c = Char.ofNat 45 then
        match collapseHyphens cs with
        | Char.ofNat 45 :: rest => Char.ofNat 45 :: rest
        | rest => c :: rest
      else c :: collapseHyphens cs

/-- Model of `_slug` (line 43): lowercase, strip apostrophes and backticks, turn runs of
other non-alphanumerics into single hyphens, trim edge hyphens. -/
def slug (s : String) : String :=
  let lowered := (pyLower s).data.filter fun c => !(isApos c)
  String.mk (collapseHyphens (stripHyphens (hyphenateRuns lowered)))

/- ───── the regex search of `_links` (line 126): first match of a
`<digits>-<digits>` pattern ───── -/

/-- ASCII digit test (the regex class `\d` over this script's data). -/
def isDigitCh (c : Char) : Bool := Char.ofNat 48 ≤ c && c ≤ Char.ofNat 57

/-- The maximal leading digit run and the remainder. -/
def digitRun (l : List Char) : List Char × List Char :=
  (l.takeWhile isDigitCh, l.dropWhile isDigitCh)

/-- Try to match `<digits>-<digits>` anchored at the head of `l`, returning the
matched text. The first digit run is maximal, then a hyphen, then a maximal
digit run — exactly what backtracking yields for this pattern. -/
def matchGroupBatch (l : List Char) : Option (List Char) :=
  let (d1, rest1) := digitRun l
  if d1.isEmpty then none
  else match rest1 with
    | c :: rest2 =>
        if c = Char.ofNat 45 then
          let (d2, _) := digitRun rest2
          if d2.isEmpty then none else some (d1 ++ c :: d2)
        else none
    | [] => none

/-- Leftmost-match scan for the pattern, over a character list. -/
def searchGroupBatch : List Char → Option (List Char)
  | [] => none
  | c :: cs =>
      match matchGroupBatch (c :: cs) with
      | some m => some m
      | none => searchGroupBatch cs

/-- Model of the `re.search` of the `<group>-<batch>` digit pattern in `_links` (line 126):
the leftmost match, as a string. -/
def findGroupBatch (s : String) : Option String :=
  (searchGroupBatch s.data).map String.mk

/- ───── Time window constants (lines 30-34), as functions of the wall clock ───── -/

/-- Constant `WEEKS_AHEAD = 16` (line 31). -/
def WEEKS_AHEAD : Int := 16

/-- Minutes in a day. -/
def minPerDay : Int := 1440

/-- Constant `START_UTC = NOW_UTC - timedelta(days = 2)` (line 32), in minutes. -/
def START_UTC (now : Int) : Int := now - 2 * minPerDay

/-- Constant `FOUR_WEEKS_UTC = NOW_UTC + timedelta(weeks = 4)` (line 33). -/
def FOUR_WEEKS_UTC (now : Int) : Int := now + 4 * 7 * minPerDay

/-- Constant `LIMIT_UTC = NOW_UTC + timedelta(weeks = WEEKS_AHEAD)` (line 34). -/
def LIMIT_UTC (now : Int) : Int := now + WEEKS_AHEAD * 7 * minPerDay

/-- The membership test both adapters apply (lines 176 and 207):
`START_UTC <= dt <= LIMIT_UTC`, both endpoints included. -/
def inWindow (now t : Int) : Bool :=
  decide (START_UTC now ≤ t) && decide (t ≤ LIMIT_UTC now)

/- ───── Display timezone and `_fmt_local` (line 53) ───── -/

/-- A `ZoneInfo` as the script observes it: a UTC offset in minutes and a
short name, both possibly instant-dependent (PST against PDT). -/
structure Tz where
  offsetAt : Int → Int
  nameAt : Int → String

/-- A fixed-offset stand-in for `TZ_PT` during Pacific Daylight Time
(UTC-7), used to evaluate the renderer at concrete instants. -/
def PTfixed : Tz where
  offsetAt := fun _ => -420
  nameAt := fun _ => "PDT"

/-- Python `weekday()` (Monday = 0) and `hour` of the local instant, the pair
bound to `wd, hr` in `_render` (line 274). 1970-01-01 was a Thursday (3). -/
def wdHrOf (t : Int) (tz : Tz) : Int × Int :=
  let loc := t + tz.offsetAt t
  ((loc.ediv minPerDay + 3).emod 7, (loc.emod minPerDay).ediv 60)

/-- Civil date (year, month, day) from days since 1970-01-01, by the standard
era-decomposition algorithm of the proleptic Gregorian calendar. -/
def civilFromDays (z0 : Int) : Int × Int × Int :=
  let z := z0 + 719468
  let era := (if 0 ≤ z then z else z - 146096).ediv 146097
  let doe := z - era * 146097
  let yoe := (doe - doe.ediv 1460 + doe.ediv 36524 - doe.ediv 146096).ediv 365
  let y := yoe + era * 400
  let doy := doe - (365 * yoe + yoe.ediv 4 - yoe.ediv 100)
  let mp := (5 * doy + 2).ediv 153
  let d := doy - (153 * mp + 2).ediv 5 + 1
  let m := if mp < 10 then mp + 3 else mp - 9
  (if m ≤ 2 then y + 1 else y, m, d)

/-- The `strftime` weekday names, indexed by Python `weekday()` (Monday = 0). -/
def weekdayName (wd : Int) : String :=
  if wd = 0 then "Monday" else if wd = 1 then "Tuesday"
  else if wd = 2 then "Wednesday" else if wd = 3 then "Thursday"
  else if wd = 4 then "Friday" else if wd = 5 then "Saturday" else "Sunday"

/-- The `strftime` abbreviated month names, 1-indexed. -/
def monthAbbrev (m : Int) : String :=
  if m = 1 then "Jan" else if m = 2 then "Feb" else if m = 3 then "Mar"
  else if m = 4 then "Apr" else if m = 5 then "May" else if m = 6 then "Jun"
  else if m = 7 then "Jul" else if m = 8 then "Aug" else if m = 9 then "Sep"
  else if m = 10 then "Oct" else if m = 11 then "Nov" else "Dec"

/-- Model of `_fmt_local` (line 53): format the instant in the display zone as
`"<Weekday> <Mon> <day> <h>:<mm><am/pm>"` and return it with the zone name. -/
def fmtLocal (t : Int) (tz : Tz) : String × String :=
  let loc := t + tz.offsetAt t
  let days := loc.ediv minPerDay
  let md := civilFromDays days
  let minOfDay := loc.emod minPerDay
  let hr := minOfDay.ediv 60
  let mi := minOfDay.emod 60
  let wd := (days + 3).emod 7
  let h12 := if hr.emod 12 = 0 then (12 : Int) else hr.emod 12
  let ampm := if hr < 12 then "am" else "pm"
  let mm := (if mi < 10 then "0" else "") ++ toString mi
  (weekdayName wd ++ " " ++ monthAbbrev md.2.1 ++ " " ++ toString md.2.2 ++ " "
      ++ toString h12 ++ ":" ++ mm ++ ampm,
   tz.nameAt t)

/- ───── `_rocket_slug` (line 101) and `_links` (line 123) ───── -/

/-- Model of `_rocket_slug` (line 101): static table of known vehicles, generic slug
derivation otherwise. -/
def rocketSlug (rocket : String) : String :=
  if rocket = "Falcon 9" then "falcon-9"
  else if rocket = "Falcon Heavy" then "falcon-heavy"
  else if rocket = "Starship" then "starship"
  else slug rocket

/-- Model of `_links` (line 123): the SpaceX mission URL and the RocketLaunch.org URL.
`probe` stands for `_validate_url` (line 112): an HTTP HEAD returning 200;
an exception there yields `false`, so a failed probe selects the fallback
schedule URL, never an error. -/
def links (probe : String → Bool) (mission rocket : String) (slg : Option String) :
    String × String :=
  let sxSlug :=
    if containsStr (pyLower mission) "starlink" then
      match findGroupBatch mission with
      | some gb => "sl-" ++ gb
      | none => pyOr slg (slug mission)
    else pyOr slg (slug mission)
  let sx := "https://www.spacex.com/launches/mission/?missionId=" ++ sxSlug
  let rl0 := "https://rocketlaunch.org/mission-" ++ rocketSlug rocket ++ "-" ++ slug mission
  let rl := if probe rl0 then rl0 else "https://rocketlaunch.org/launch-schedule/spacex"
  (sx, rl)

/- ───── `_rocket_name` (line 88) with the run-local `_ROCKETS` cache ───── -/

/-- The `_ROCKETS` dict: an association list from rocket id to name. -/
def RocketCache := List (String × String)

/-- Model of `_rocket_name` (line 88). `fetch` is the vehicle-name endpoint; `none`
models a raised request/JSON exception, in which case the function answers
with the placeholder and does not populate the cache. The returned `Nat`
counts the endpoint calls this invocation issued (0 or 1). -/
def rocketName (fetch : String → Option String) (rid : String)
    (cache : List (String × String)) : String × List (String × String) × Nat :=
  match cache.lookup rid with
  | some n => (n, cache, 0)
  | none =>
      match fetch rid with
      | some n => (n, (rid, n) :: cache, 1)
      | none => ("Unknown Rocket", cache, 1)

/-- Endpoint calls issued for the identifier `r` while a run resolves the
rocket ids `rids` in order through `rocketName`, threading the cache. -/
def rocketCallsFor (fetch : String → Option String) (r : String) :
    List String → List (String × String) → Nat
  | [], _ => 0
  | rid :: rest, cache =>
      let step := rocketName fetch rid cache
      (if rid = r then step.2.2 else 0) + rocketCallsFor fetch r rest step.2.1

/- ───── The normalized record and the two source adapters ───── -/

/-- Constant `VANDENBERG_PAD_IDS` (line 37). -/
def VANDENBERG_PAD_IDS : List String := ["5e9e4502f509092b78566f87"]

/-- The normalized launch record both adapters produce and `_render` consumes:
the dict keys `name`, `date_utc` (parsed to an instant), `rocket`,
`rocket_name`, `slug`, `pad_name`, `location`. The fallback adapter sets
`rocket_name`; the primary adapter leaves it absent and keeps the opaque
rocket id in `rocket`. -/
structure Record where
  name : String
  date_utc : Int
  rocket : String := ""
  rocket_name : Option String := none
  slg : Option String := none
  launchpad : String := ""
  pad_name : String := ""
  location : String := ""
deriving DecidableEq

/-- A document of the primary provider's launches-query response, holding the
selected fields `name`, `date_utc`, `rocket`, `slug`, `launchpad`. -/
structure SxDoc where
  name : String
  date_utc : Int
  rocket : String
  slg : Option String
  launchpad : String

/-- Model of `_spacex` (line 143). `padInfo` stands for `_get_pad_info` (line 73),
giving `(name, locality)` for a pad id (that helper recovers from its own
failures internally, so it always yields a pair). `resp1` is the response
of the pad-filtered query, `resp2` of the broader query issued only when the
first returns no documents; `Except.error` models a raised exception, caught
at line 190 to return the empty list. -/
def spacex (now : Int) (padInfo : String → String × String)
    (resp1 resp2 : Except Unit (List SxDoc)) : List Record :=
  match resp1 with
  | Except.error _ => []
  | Except.ok docs1 =>
      match (if docs1.isEmpty then resp2 else Except.ok docs1) with
      | Except.error _ => []
      | Except.ok docs =>
          docs.filterMap fun d =>
            if !(inWindow now d.date_utc) then none
            else if !(VANDENBERG_PAD_IDS.contains d.launchpad) then none
            else
              let pi := padInfo d.launchpad
              some { name := d.name, date_utc := d.date_utc, rocket := d.rocket,
                     rocket_name := none, slg := d.slg, launchpad := d.launchpad,
                     pad_name := pi.1,
                     location := pyStrip (pySplitHead (Char.ofNat 44) pi.2) }

/-- A `location` object nested in a fallback-provider pad. -/
structure LLLocation where
  name : Option String

/-- A `pad` object of the fallback provider. -/
structure LLPad where
  name : Option String
  location : Option LLLocation

/-- A result entry of the fallback provider: `name`, `window_start`, optional
nested `pad`. -/
structure LLEntry where
  name : String
  window_start : Int
  pad : Option LLPad

/-- The pad filter of `_launch_library` (line 212), applied to the lowercased
pad name: the regex `slc-?4[eE]` or the substrings `4e` / `4w`. -/
def llPadMatch (padName : String) : Bool :=
  containsStr padName "slc4e" || containsStr padName "slc-4e"
    || containsStr padName "4e" || containsStr padName "4w"

/-- The name split of `_launch_library` (lines 217-219): split the display
name at the first `|` into rocket and mission, defaulting the rocket to
`"Falcon 9"` when there is no delimiter; both parts stripped. -/
def llSplitName (nameRaw : String) : String × String :=
  match pySplit1 (Char.ofNat 124) nameRaw with
  | some p => (pyStrip p.1, pyStrip p.2)
  | none => (pyStrip "Falcon 9", pyStrip nameRaw)

/-- The nested access reading the pad name with a default: get pad, then get its name. -/
def llPadName (l : LLEntry) (dflt : String) : String :=
  (l.pad.bind LLPad.name).getD dflt

/-- The nested access reading the pad location name, defaulting to Vandenberg. -/
def llLocationName (l : LLEntry) : String :=
  ((l.pad.bind LLPad.location).bind LLLocation.name).getD "Vandenberg"

/-- Model of `_launch_library` (line 194). `resp` is the upcoming-launches response;
`Except.error` models a raised exception, caught at line 233 to return the
empty list. -/
def launchLibrary (now : Int) (resp : Except Unit (List LLEntry)) : List Record :=
  match resp with
  | Except.error _ => []
  | Except.ok raw =>
      raw.filterMap fun l =>
        if !(inWindow now l.window_start) then none
        else if !(llPadMatch (pyLower (llPadName l ""))) then none
        else
          let parts := llSplitName l.name
          some { name := parts.2, date_utc := l.window_start,
                 rocket := "", rocket_name := some parts.1, slg := none,
                 launchpad := "",
                 pad_name := llPadName l "SLC-4E",
                 location := pyStrip (pySplitHead (Char.ofNat 44) (llLocationName l)) }

/- ───── `main` (line 377): the either/or reconciliation ───── -/

/-- The fallback control flow of `main` (lines 379-382): keep the primary
adapter's records when there are any; only otherwise force the fallback
adapter (passed as a thunk so that its invocation is observable) and return
its records unmerged. The boolean records whether the fallback ran. -/
def pipeline (primary : List Record) (fallback : Unit → List Record) :
    List Record × Bool :=
  if primary.isEmpty then (fallback (), true) else (primary, false)

/- ───── `_render` (line 238) ───── -/

/-- Constant `REPO_URL` (line 38). -/
def REPO_URL : String := "https://github.com/jimmynail/spacex-launches-feed"

/-- Constant `SCRIPT_URL` (line 39). -/
def SCRIPT_URL : String := REPO_URL ++ "/blob/main/send_digest.py"

/-- Constant `WORKFLOW_URL` (line 40). -/
def WORKFLOW_URL : String := REPO_URL ++ "/actions/workflows/send_digest.yml"

/-- The no-launches message of `_render` (line 241). -/
def noLaunchesMsg : String :=
  "No Vandenberg launches currently scheduled in the next "
    ++ toString WEEKS_AHEAD ++ " weeks."

/-- The plain-text footer of the empty branch (line 243). -/
def emptyFooterTxt : String :=
  "\n---\n"
    ++ "This email lists upcoming SpaceX launches from Vandenberg SFB within a "
    ++ toString WEEKS_AHEAD ++ "-week window.\n"
    ++ "Edit the look-forward window: " ++ SCRIPT_URL
    ++ ". Disable these emails: " ++ WORKFLOW_URL

/-- The HTML footer (lines 248 and 336; both branches build the same string). -/
def footerHtml : String :=
  "<p style='font-size: 10px; color: #999;'>"
    ++ "This email lists upcoming SpaceX launches from Vandenberg SFB within a "
    ++ toString WEEKS_AHEAD ++ "-week window.<br>"
    ++ "<a href='" ++ SCRIPT_URL ++ "'>Edit</a> the look-forward window or <a href='"
    ++ WORKFLOW_URL ++ "'>disable</a> these emails."
    ++ "</p>"

/-- The plain-text body returned by the empty branch of `_render` (line 255). -/
def emptyTxtBody : String := noLaunchesMsg ++ emptyFooterTxt

/-- The HTML body returned by the empty branch of `_render` (line 255). -/
def emptyHtmlBody : String := "<p>" ++ noLaunchesMsg ++ "</p>" ++ footerHtml

/-- The plain-text footer of the non-empty branch (line 330; it differs from
the empty branch by line breaks and a trailing newline). -/
def footerTxt : String :=
  "\n---\n"
    ++ "This email lists upcoming SpaceX launches from Vandenberg SFB within a "
    ++ toString WEEKS_AHEAD ++ "-week window.\n"
    ++ "Edit the look-forward window: " ++ SCRIPT_URL ++ "\n"
    ++ "Disable these emails: " ++ WORKFLOW_URL ++ "\n"

/-- The preferred-viewing-window test on `(wd, hr)` (lines 275-279 and
308-312): Friday at or after 1pm, all of Saturday, Sunday before 6pm. -/
def highlightOf (wd hr : Int) : Bool :=
  (decide (wd = 4) && decide (13 ≤ hr)) || decide (wd = 5)
    || (decide (wd = 6) && decide (hr < 18))

/-- One item's text and HTML block, given the highlight decision `hl`: the
per-record body shared by the two sections (lines 267-294 and 300-327
excluding the highlight computation). `lookup` stands for a resolved
`_rocket_name` for the run; `probe` is `_validate_url`. -/
def renderEntry (tz : Tz) (lookup : String → String) (probe : String → Bool)
    (d : Record) (hl : Bool) : String × String :=
  let fm := fmtLocal d.date_utc tz
  let timeStr := fm.1
  let tzName := fm.2
  let rocket := pyOr d.rocket_name (lookup d.rocket)
  let lk := links probe d.name rocket d.slg
  let sx := lk.1
  let rl := lk.2
  let timeLine :=
    if hl then "**🚀 " ++ timeStr ++ " " ++ tzName ++ "**"
    else "🚀 " ++ timeStr ++ " " ++ tzName
  let htmlTime :=
    if hl then
      "<span style='color: red;'><strong>" ++ timeStr ++ " " ++ tzName
        ++ "</strong></span>"
    else "<strong>" ++ timeStr ++ " " ++ tzName ++ "</strong>"
  let summary := d.name ++ ", " ++ rocket ++ ", " ++ d.location
  (timeLine ++ "\n" ++ summary ++ "\nSpaceX: " ++ sx ++ "\nRocketlaunch: " ++ rl ++ "\n",
   "<li style='margin-bottom:12px;list-style:none'>"
     ++ htmlTime ++ "<br>" ++ summary ++ "<br>"
     ++ "<a href='" ++ sx ++ "'>SpaceX</a> "
     ++ "<a href='" ++ rl ++ "'>Rocketlaunch</a></li>")

/-- The Next 4 Weeks loop (lines 266-294): each iteration binds `wd, hr` to
the item's own local weekday and hour and highlights from them. Returns the
text blocks, the HTML blocks, and the final value of the `wd, hr` variables
(`none` when the loop body never ran, so they were never assigned). -/
def renderSec1 (tz : Tz) (lookup : String → String) (probe : String → Bool) :
    List Record → List String × List String × Option (Int × Int)
  | [] => ([], [], none)
  | d :: rest =>
      let wh := wdHrOf d.date_utc tz
      let hl := highlightOf wh.1 wh.2
      let blk := renderEntry tz lookup probe d hl
      let tail := renderSec1 tz lookup probe rest
      (blk.1 :: tail.1, blk.2 :: tail.2.1, some (tail.2.2.getD wh))

/-- The After That loop (lines 300-327): its body recomputes `loc_dt` but
never reassigns `wd, hr`, so the highlight test reads whatever the first
loop left in them — `none` means they are unbound and the read raises
`NameError`, modelled by returning `none` for the whole render. -/
def renderSec2 (tz : Tz) (lookup : String → String) (probe : String → Bool)
    (st : Option (Int × Int)) : List Record → Option (List String × List String)
  | [] => some ([], [])
  | d :: rest =>
      match st with
      | none => none
      | some wh =>
          let hl := highlightOf wh.1 wh.2
          let blk := renderEntry tz lookup probe d hl
          (renderSec2 tz lookup probe st rest).map fun p =>
            (blk.1 :: p.1, blk.2 :: p.2)

/-- Model of `_render` (line 238): `none` models a raised `NameError`. The
partition into the two sections (lines 257-258), the conditional headings,
and the joining with newlines follow the source; the HTML list is opened at
line 260 and never closed, as in the source. -/
def render (now : Int) (tz : Tz) (lookup : String → String)
    (probe : String → Bool) (items : List Record) : Option (String × String) :=
  if items.isEmpty then some (emptyTxtBody, emptyHtmlBody)
  else
    let next4 := items.filter fun d => decide (d.date_utc ≤ FOUR_WEEKS_UTC now)
    let after := items.filter fun d => !(decide (d.date_utc ≤ FOUR_WEEKS_UTC now))
    let sec1 := renderSec1 tz lookup probe next4
    match renderSec2 tz lookup probe sec1.2.2 after with
    | none => none
    | some sec2 =>
        let txtLines :=
          (if next4.isEmpty then [] else "**Next 4 Weeks**" :: sec1.1)
            ++ (if after.isEmpty then [] else "**After That**" :: sec2.1)
            ++ [footerTxt]
        let htmlLines :=
          "<ul style='padding-left:0'>"
            :: ((if next4.isEmpty then [] else "<h3>Next 4 Weeks</h3>" :: sec1.2.1)
              ++ (if after.isEmpty then [] else "<h3>After That</h3>" :: sec2.2)
              ++ [footerHtml])
        some (String.intercalate "\n" txtLines, String.intercalate "\n" htmlLines)

/- ───── Concrete inputs used to evaluate the model ───── -/

/-- A near-term record: with `now = 0` and the fixed PDT offset its local time
is Friday Jan 2 1970, 1:00pm — inside the preferred viewing window. -/
def recA : Record :=
  { name := "NROL-22", date_utc := 2640, rocket_name := some "Falcon 9",
    location := "Vandenberg" }

/-- A later-bucket record: 50000 minutes is past `FOUR_WEEKS_UTC 0`; its local
time is Wednesday Feb 4 1970, 10:20am — outside the viewing window. -/
def recB : Record :=
  { name := "Transporter-99", date_utc := 50000, rocket_name := some "Falcon 9",
    location := "Vandenberg" }

/-- Another later-bucket record (60000 minutes past the epoch). -/
def recC : Record :=
  { name := "Bandwagon-9", date_utc := 60000, rocket_name := some "Falcon 9",
    location := "Vandenberg" }

/- ───── Helper lemmas ───── -/

theorem splitFirst_some {d : Char} :
    ∀ {cs l r : List Char}, splitFirst d cs = some (l, r) → cs = l ++ d :: r ∧ d ∉ l := by
  intro cs
  induction cs with
  | nil => intro l r h; simp [splitFirst] at h
  | cons c cs ih =>
      intro l r h
      rw [splitFirst] at h
      by_cases hc : c = d
      · rw [if_pos hc] at h
        obtain ⟨hl, hr⟩ := Prod.mk.injEq .. ▸ Option.some_inj.mp h
        subst hl
        subst hr
        subst hc
        simp
      · rw [if_neg hc] at h
        cases hsp : splitFirst d cs with
        | none => rw [hsp] at h; simp at h
        | some p =>
            rw [hsp, Option.map_some'] at h
            obtain ⟨hl, hr⟩ := Prod.mk.injEq .. ▸ Option.some_inj.mp h
            obtain ⟨he, hm⟩ := ih (l := p.1) (r := p.2) (by rw [hsp])
            subst hl
            subst hr
            refine ⟨by rw [he]; rfl, ?_⟩
            intro hmem
            rcases List.mem_cons.mp hmem with h1 | h1
            · exact hc h1.symm
            · exact hm h1

theorem splitFirst_none {d : Char} :
    ∀ {cs : List Char}, splitFirst d cs = none → d ∉ cs := by
  intro cs
  induction cs with
  | nil => intro _; simp
  | cons c cs ih =>
      intro h
      rw [splitFirst] at h
      by_cases hc : c = d
      · rw [if_pos hc] at h; simp at h
      · rw [if_neg hc] at h
        cases hsp : splitFirst d cs with
        | none => simp [ih hsp, Ne.symm hc]
        | some p => rw [hsp, Option.map_some'] at h; simp at h

theorem lookup_cons_ne {cache : List (String × String)} {k r v : String}
    (h : k ≠ r) : ((k, v) :: cache).lookup r = cache.lookup r := by
  have hb : (r == k) = false := beq_eq_false_iff_ne.mpr (Ne.symm h)
  simp [List.lookup, hb]

theorem rocketCallsFor_cached (fetch : String → Option String) (r v : String) :
    ∀ (rids : List String) (cache : List (String × String)),
      cache.lookup r = some v → rocketCallsFor fetch r rids cache = 0 := by
  intro rids
  induction rids with
  | nil => intro cache _; rfl
  | cons rid rest ih =>
      intro cache hc
      by_cases hr : rid = r
      · subst hr
        simp [rocketCallsFor, rocketName, hc, ih _ hc]
      · simp only [rocketCallsFor, rocketName]
        cases hl : cache.lookup rid with
        | some n => simpa [hr] using ih _ hc
        | none =>
            cases hf : fetch rid with
            | some n =>
                have : ((rid, n) :: cache).lookup r = some v := by
                  rw [lookup_cons_ne hr]; exact hc
                simpa [hr] using ih _ this
            | none => simpa [hr] using ih _ hc

/- ───── C1 ───── -/

/-- C1: the pipeline output is exactly one adapter's result — a non-empty
primary result is returned as is and the fallback thunk is never forced,
while an empty primary result hands over to the fallback, whose result is
returned unmerged. -/
theorem c1_pipeline_exclusive (p : List Record) (fb : Unit → List Record) :
    (p ≠ [] → pipeline p fb = (p, false)) ∧
    (p = [] → pipeline p fb = (fb (), true)) := by
  constructor
  · intro h
    simp [pipeline, h]
  · intro h
    subst h
    rfl

/-- Witness for C1 at concrete inputs. -/
theorem c1_pipeline_exclusive_witness :
    pipeline [recA] (fun _ => [recB]) = ([recA], false) ∧
    pipeline [] (fun _ => [recB]) = ([recB], true) :=
  ⟨(c1_pipeline_exclusive [recA] (fun _ => [recB])).1 (by simp),
   (c1_pipeline_exclusive [] (fun _ => [recB])).2 rfl⟩

/- ───── C4 ───── -/

set_option maxRecDepth 40000 in
/-- C4: a raised error inside either adapter (primary query, broad retry, or
fallback query) yields the empty list instead of propagating; an empty
primary hands over to the fallback; and with both adapters empty the
renderer still produces the two no-launches bodies rather than failing. -/
theorem c4_source_errors_recovered (now : Int) (padInfo : String → String × String)
    (resp2 : Except Unit (List SxDoc)) (tz : Tz) (lookup : String → String)
    (probe : String → Bool) (fb : Unit → List Record) :
    spacex now padInfo (Except.error ()) resp2 = [] ∧
    spacex now padInfo (Except.ok []) (Except.error ()) = [] ∧
    launchLibrary now (Except.error ()) = [] ∧
    pipeline [] fb = (fb (), true) ∧
    render now tz lookup probe [] = some (emptyTxtBody, emptyHtmlBody) ∧
    containsStr emptyTxtBody "No Vandenberg launches currently scheduled" = true ∧
    containsStr emptyHtmlBody "No Vandenberg launches currently scheduled" = true :=
  ⟨rfl, rfl, rfl, rfl, rfl, by decide, by decide⟩

/- ───── C8 ───── -/

set_option maxRecDepth 40000 in
/-- C8: rendering the empty record list yields a plain-text body containing
the configured-horizon phrase and the edit and disable links, and an HTML
body containing the paragraph-wrapped no-launches message plus the same
footer links. -/
theorem c8_empty_render (now : Int) (tz : Tz) (lookup : String → String)
    (probe : String → Bool) :
    render now tz lookup probe [] = some (emptyTxtBody, emptyHtmlBody) ∧
    containsStr emptyTxtBody ("next " ++ toString WEEKS_AHEAD ++ " weeks") = true ∧
    containsStr emptyTxtBody SCRIPT_URL = true ∧
    containsStr emptyTxtBody WORKFLOW_URL = true ∧
    containsStr emptyHtmlBody ("<p>" ++ noLaunchesMsg ++ "</p>") = true ∧
    containsStr emptyHtmlBody SCRIPT_URL = true ∧
    containsStr emptyHtmlBody WORKFLOW_URL = true :=
  ⟨rfl, by decide, by decide, by decide, by decide, by decide, by decide⟩

/- ───── C9 ───── -/

/-- C9: when a run resolves a list of rocket identifiers that contains `r`
(in particular when two or more records share it), `r` not being cached at
the start and its endpoint lookup succeeding, the endpoint is called for
`r` exactly once — the first call populates the run-local cache and every
later resolution is served from it. -/
theorem c9_rocket_cache_single_call (fetch : String → Option String) (r n : String)
    (rids : List String) (cache : List (String × String))
    (hmem : r ∈ rids) (hc : cache.lookup r = none) (hf : fetch r = some n) :
    rocketCallsFor fetch r rids cache = 1 := by
  induction rids generalizing cache with
  | nil => cases hmem
  | cons rid rest ih =>
      by_cases hr : rid = r
      · subst hr
        have hcached : ((rid, n) :: cache).lookup rid = some n := by
          simp [List.lookup]
        simp [rocketCallsFor, rocketName, hc, hf,
          rocketCallsFor_cached fetch rid n rest _ hcached]
      · have hmem' : r ∈ rest := by
          rcases List.mem_cons.mp hmem with h1 | h1
          · exact absurd h1.symm hr
          · exact h1
        simp only [rocketCallsFor, rocketName]
        cases hl : cache.lookup rid with
        | some v => simpa [hr] using ih _ hmem' hc
        | none =>
            cases hfr : fetch rid with
            | some v =>
                have : ((rid, v) :: cache).lookup r = none := by
                  rw [lookup_cons_ne hr]; exact hc
                simpa [hr] using ih _ hmem' this
            | none => simpa [hr] using ih _ hmem' hc

/-- Witness for C9: two records sharing the identifier cause one call. -/
theorem c9_rocket_cache_single_call_witness :
    rocketCallsFor (fun x => if x = "falcon9id" then some "Falcon 9" else none)
      "falcon9id" ["falcon9id", "falcon9id"] [] = 1 :=
  c9_rocket_cache_single_call (fun x => if x = "falcon9id" then some "Falcon 9" else none)
    "falcon9id" "Falcon 9" ["falcon9id", "falcon9id"] [] (by decide) rfl (by decide)

/- ───── C5 ───── -/

/-- C5 counterexample: the configured lookahead of this script is 16 weeks
(112 days), so the window end is not now plus 21 days — at `now = 0` the
code's end is 161280 minutes, not 30240. -/
theorem c5_lookahead_not_21_days :
    LIMIT_UTC 0 = 161280 ∧ (0 : Int) + 21 * minPerDay = 30240 ∧
    LIMIT_UTC 0 ≠ (0 : Int) + 21 * minPerDay := by
  refine ⟨by decide, by decide, by decide⟩

/-- C5 as amended: the window is the inclusive interval from now minus 2 days
to now plus the configured lookahead of 16 weeks, and each adapter keeps a
pad-valid record exactly when its launch time lies in that interval, both
endpoints included. -/
theorem c5_window_inclusive_16_weeks (now : Int) (padInfo : String → String × String)
    (resp2 : Except Unit (List SxDoc)) (d : SxDoc) (e : LLEntry)
    (hd : VANDENBERG_PAD_IDS.contains d.launchpad = true)
    (he : llPadMatch (pyLower (llPadName e "")) = true) :
    START_UTC now = now - 2 * 1440 ∧
    LIMIT_UTC now = now + 16 * 7 * 1440 ∧
    inWindow now (START_UTC now) = true ∧
    inWindow now (LIMIT_UTC now) = true ∧
    inWindow now (START_UTC now - 1) = false ∧
    inWindow now (LIMIT_UTC now + 1) = false ∧
    (spacex now padInfo (Except.ok [d]) resp2 ≠ [] ↔ inWindow now d.date_utc = true) ∧
    (launchLibrary now (Except.ok [e]) ≠ [] ↔ inWindow now e.window_start = true) := by
  refine ⟨rfl, rfl, ?_, ?_, ?_, ?_, ?_, ?_⟩
  · simp [inWindow, START_UTC, LIMIT_UTC, WEEKS_AHEAD, minPerDay]
    omega
  · simp [inWindow, START_UTC, LIMIT_UTC, WEEKS_AHEAD, minPerDay]
    omega
  · simp [inWindow, START_UTC, LIMIT_UTC, WEEKS_AHEAD, minPerDay]
  · simp [inWindow, START_UTC, LIMIT_UTC, WEEKS_AHEAD, minPerDay]
  · have hd2 : d.launchpad ∈ VANDENBERG_PAD_IDS := List.mem_of_elem_eq_true hd
    cases hw : inWindow now d.date_utc with
    | true => simp [spacex, hw, hd, hd2]
    | false => simp [spacex, hw]
  · cases hw : inWindow now e.window_start with
    | true => simp [launchLibrary, hw, he]
    | false => simp [launchLibrary, hw]

/-- Witness for C5 at concrete inputs: a pad-valid primary document and a
pad-valid fallback entry at `now = 0`. -/
theorem c5_window_inclusive_16_weeks_witness :
    inWindow 0 (START_UTC 0) = true ∧ inWindow 0 (LIMIT_UTC 0 + 1) = false ∧
    (spacex 0 (fun _ => ("SLC-4E", "Vandenberg SFB, California"))
        (Except.ok [{ name := "NROL-22", date_utc := 100, rocket := "rid",
                      slg := none, launchpad := "5e9e4502f509092b78566f87" }])
        (Except.ok []) ≠ [] ↔ inWindow 0 100 = true) :=
  have h := c5_window_inclusive_16_weeks 0
    (fun _ => ("SLC-4E", "Vandenberg SFB, California")) (Except.ok [])
    { name := "NROL-22", date_utc := 100, rocket := "rid",
      slg := none, launchpad := "5e9e4502f509092b78566f87" }
    { name := "Falcon 9 | NROL-22", window_start := 100,
      pad := some { name := some "SLC-4E", location := some { name := some "Vandenberg SFB" } } }
    (by decide) (by decide)
  ⟨h.2.2.1, h.2.2.2.2.2.1, h.2.2.2.2.2.2.1⟩

/- ───── C6 ───── -/

/-- C6: a mission name containing starlink (case-insensitive) together with a
group-batch digit pattern forces the manufacturer slug sl-group-batch, no
matter what provider slug is supplied; every other mission name takes the
provider slug when one is present (non-empty) and the generic derivation
only otherwise. -/
theorem c6_starlink_slug (mission rocket : String) (slg : Option String)
    (probe : String → Bool) :
    (∀ gb, containsStr (pyLower mission) "starlink" = true →
       findGroupBatch mission = some gb →
       (links probe mission rocket slg).1 =
         "https://www.spacex.com/launches/mission/?missionId=" ++ ("sl-" ++ gb)) ∧
    (containsStr (pyLower mission) "starlink" = false ∨ findGroupBatch mission = none →
       (links probe mission rocket slg).1 =
         "https://www.spacex.com/launches/mission/?missionId="
           ++ pyOr slg (slug mission)) := by
  constructor
  · intro gb hs hm
    simp [links, hs, hm]
  · intro h
    rcases h with hs | hm
    · simp [links, hs]
    · cases hs : containsStr (pyLower mission) "starlink" with
      | false => simp [links, hs]
      | true => simp [links, hs, hm]

/-- Witness for C6: the Starlink Group 15-3 scenario overrides the provider
slug, and a non-Starlink mission without a provider slug derives one. -/
theorem c6_starlink_slug_witness :
    (links (fun _ => false) "Starlink Group 15-3" "Falcon 9" (some "provider-slug")).1 =
      "https://www.spacex.com/launches/mission/?missionId=" ++ ("sl-" ++ "15-3") ∧
    (links (fun _ => false) "NROL-22" "Falcon 9" none).1 =
      "https://www.spacex.com/launches/mission/?missionId="
        ++ pyOr none (slug "NROL-22") :=
  ⟨(c6_starlink_slug "Starlink Group 15-3" "Falcon 9" (some "provider-slug")
      (fun _ => false)).1 "15-3" (by decide) (by decide),
   (c6_starlink_slug "NROL-22" "Falcon 9" none (fun _ => false)).2
      (Or.inl (by decide))⟩

/- ───── C7 ───── -/

/-- C7: the fallback-provider display name is split at the first delimiter
into a trimmed rocket part and a trimmed mission part; with no delimiter
present the rocket name defaults to Falcon 9 and the whole trimmed name is
the mission. -/
theorem c7_fallback_name_split (n l r : String) :
    (pySplit1 (Char.ofNat 124) n = some (l, r) →
       n.data = l.data ++ Char.ofNat 124 :: r.data ∧
       Char.ofNat 124 ∉ l.data ∧
       llSplitName n = (pyStrip l, pyStrip r)) ∧
    (pySplit1 (Char.ofNat 124) n = none →
       Char.ofNat 124 ∉ n.data ∧
       llSplitName n = ("Falcon 9", pyStrip n)) := by
  constructor
  · intro h
    obtain ⟨p, hsp, hpair⟩ := Option.map_eq_some'.mp h
    obtain ⟨hl, hr⟩ := Prod.mk.injEq .. ▸ hpair
    obtain ⟨he, hm⟩ := splitFirst_some hsp
    constructor
    · rw [← hl, ← hr]; exact he
    · constructor
      · rw [← hl]; exact hm
      · rw [llSplitName, h]
  · intro h
    have hn : splitFirst (Char.ofNat 124) n.data = none := by
      cases hsp : splitFirst (Char.ofNat 124) n.data with
      | none => rfl
      | some p => rw [pySplit1, hsp, Option.map_some'] at h; simp at h
    refine ⟨splitFirst_none hn, ?_⟩
    rw [llSplitName, h]
    show (pyStrip "Falcon 9", pyStrip n) = ("Falcon 9", pyStrip n)
    rw [show pyStrip "Falcon 9" = "Falcon 9" from by decide]

/-- Witness for C7: the delimiter scenario of the spec and the no-delimiter
scenario, checked both on the split and on the record the fallback adapter
builds from such an entry. -/
theorem c7_fallback_name_split_witness :
    llSplitName "Falcon 9 Block 5 | Starlink 6-9" = ("Falcon 9 Block 5", "Starlink 6-9") ∧
    llSplitName "Transporter-12" = ("Falcon 9", "Transporter-12") ∧
    launchLibrary 0 (Except.ok
        [{ name := "Falcon 9 Block 5 | Starlink 6-9", window_start := 100,
           pad := some { name := some "SLC-4E",
                         location := some { name := some "Vandenberg SFB, CA" } } }]) =
      [{ name := "Starlink 6-9", date_utc := 100, rocket := "",
         rocket_name := some "Falcon 9 Block 5", slg := none, launchpad := "",
         pad_name := "SLC-4E", location := "Vandenberg SFB" }] :=
  ⟨((c7_fallback_name_split "Falcon 9 Block 5 | Starlink 6-9"
        "Falcon 9 Block 5 " " Starlink 6-9").1 (by decide)).2.2.trans (by decide),
   ((c7_fallback_name_split "Transporter-12" "" "").2 (by decide)).2.trans (by decide),
   by decide⟩

/- ───── C2 ───── -/

set_option maxRecDepth 200000 in
/-- C2 fails on the code: in the After That section the highlight test reads
the stale `wd, hr` of the last Next 4 Weeks item instead of the item's own
local time. Here the later record falls on a Wednesday morning — outside
the preferred viewing window — yet both bodies mark it highlighted (bold
text markup, red bold HTML span), because the near-term record before it
was a Friday 1pm launch. -/
theorem c2_later_section_highlight_is_stale :
    wdHrOf recA.date_utc PTfixed = (4, 13) ∧
    highlightOf 4 13 = true ∧
    wdHrOf recB.date_utc PTfixed = (2, 10) ∧
    highlightOf 2 10 = false ∧
    FOUR_WEEKS_UTC 0 < recB.date_utc ∧
    (render 0 PTfixed (fun _ => "Falcon 9") (fun _ => false) [recA, recB]).isSome = true ∧
    containsStr
      (((render 0 PTfixed (fun _ => "Falcon 9") (fun _ => false) [recA, recB]).getD ("", "")).2)
      "<span style='color: red;'><strong>Wednesday Feb 4 10:20am PDT</strong></span>" = true ∧
    containsStr
      (((render 0 PTfixed (fun _ => "Falcon 9") (fun _ => false) [recA, recB]).getD ("", "")).1)
      "**🚀 Wednesday Feb 4 10:20am PDT**" = true :=
  ⟨by decide, by decide, by decide, by decide, by decide, by decide, by decide, by decide⟩

/- ───── C3 ───── -/

set_option maxRecDepth 200000 in
/-- C3 fails on the code: a record list whose only record lies past the
four-week bound leaves the Next 4 Weeks loop unrun, so the After That
highlight test reads unassigned variables and the renderer raises instead
of rendering the record — no output at all, rather than both bodies
describing it. -/
theorem c3_render_drops_later_only_list :
    FOUR_WEEKS_UTC 0 < recB.date_utc ∧
    render 0 PTfixed (fun _ => "Falcon 9") (fun _ => false) [recB] = none :=
  ⟨by decide, by decide⟩

/- ───── C10 ───── -/

/-- C10: for every non-empty record list lying strictly past the four-week
bound, the near-term bucket is empty, so the later section's highlight test
reads `wd, hr` before any assignment and the render raises a `NameError`
(modelled as `none`) instead of returning the two bodies. -/
theorem c10_later_only_name_error (now : Int) (tz : Tz) (lookup : String → String)
    (probe : String → Bool) (items : List Record)
    (hne : items ≠ [])
    (hall : ∀ d ∈ items, FOUR_WEEKS_UTC now < d.date_utc) :
    render now tz lookup probe items = none := by
  have h4 : items.filter (fun d => decide (d.date_utc ≤ FOUR_WEEKS_UTC now)) = [] := by
    rw [List.filter_eq_nil_iff]
    intro a ha
    simpa using not_le.mpr (hall a ha)
  have hafter : items.filter (fun d => !decide (d.date_utc ≤ FOUR_WEEKS_UTC now)) = items := by
    rw [List.filter_eq_self]
    intro a ha
    simpa using not_le.mpr (hall a ha)
  obtain ⟨d, rest, rfl⟩ : ∃ d rest, items = d :: rest := by
    cases items with
    | nil => exact absurd rfl hne
    | cons d rest => exact ⟨d, rest, rfl⟩
  simp [render, h4, hafter, renderSec1, renderSec2]

/-- Witness for C10: a single record 60000 minutes past the epoch, past the
four-week bound of `now = 0`. -/
theorem c10_later_only_name_error_witness :
    ([recC] : List Record) ≠ [] ∧
    (∀ d ∈ ([recC] : List Record), FOUR_WEEKS_UTC 0 < d.date_utc) ∧
    render 0 PTfixed (fun _ => "Unknown Rocket") (fun _ => true) [recC] = none :=
  ⟨by decide, by decide,
   c10_later_only_name_error 0 PTfixed (fun _ => "Unknown Rocket") (fun _ => true)
     [recC] (by decide) (by decide)⟩

end SendDigest
